import Mathlib

/-!
# Galaxy user views: quota meter and preferences panel

A shallow embedding of the two view components
`static/scripts/mvc/user/user-quotameter.js` (the `UserQuotaMeter` Backbone view) and
`static/scripts/mvc/user/user-preferences.js` (the `UserPreferences` Backbone view),
followed by theorems about their threshold logic, template selection, link lists and
click handling.

Mutable JavaScript state (the view, its root element, the event log) is modelled by
explicit state passing.  Exceptions are modelled by a result that carries the state
reached when the exception was thrown, because side effects that happened before a
`throw` persist.
-/

namespace Galaxy

/-! ## JavaScript values -/

/-- A JavaScript number.  Every IEEE double is `NaN`, an infinity or a rational
(both zeros are the rational `0`, which the relational operators do not distinguish), so
a statement over all `JSNumber` covers every double. -/
inductive JSNumber where
  | nan
  | negInf
  | fin (q : ℚ)
  | posInf
  deriving DecidableEq

namespace JSNumber

instance : OfNat JSNumber n := ⟨fin n⟩

/-- The relational operator `a >= b` on numbers: false as soon as one side is `NaN`. -/
def ge : JSNumber → JSNumber → Bool
  | nan, _ => false
  | _, nan => false
  | _, negInf => true
  | posInf, _ => true
  | negInf, _ => false
  | fin _, posInf => false
  | fin a, fin b => decide (b ≤ a)

/-- The relational operator `a < b` on numbers: false as soon as one side is `NaN`. -/
def lt : JSNumber → JSNumber → Bool
  | nan, _ => false
  | _, nan => false
  | _, negInf => false
  | posInf, _ => false
  | negInf, _ => true
  | fin _, posInf => true
  | fin a, fin b => decide (a < b)

/-- The relational operator `a <= b` on numbers: false as soon as one side is `NaN`. -/
def le : JSNumber → JSNumber → Bool
  | nan, _ => false
  | _, nan => false
  | negInf, _ => true
  | _, posInf => true
  | _, negInf => false
  | posInf, fin _ => false
  | fin a, fin b => decide (a ≤ b)

end JSNumber

/-- The values the attribute `quota_percent` of the user model can hold: `null`
(quota disabled), `undefined` (attribute absent) or a number. -/
inductive JSVal where
  | null
  | undefined
  | num (n : JSNumber)
  deriving DecidableEq

namespace JSVal

/-- The abstract operation ToNumber: `null` is `0`, `undefined` is `NaN`. -/
def toNumber : JSVal → JSNumber
  | null => JSNumber.fin 0
  | undefined => JSNumber.nan
  | num n => n

/-- The operator `v >= b` with a number on the right: the left side is converted by ToNumber. -/
def ge (v : JSVal) (b : JSNumber) : Bool := v.toNumber.ge b

end JSVal

/-! ## The quota meter (`user-quotameter.js`) -/

/-- The attributes of the user model read by the meter; `model.toJSON()` returns a copy
of them, so the same record is the snapshot passed to event listeners. -/
structure UserAttrs where
  id : Option String
  quota_percent : JSVal
  total_disk_usage : JSNumber
  /-- Is `none` when the attribute is absent (`undefined`). -/
  nice_total_disk_usage : Option String
  deriving DecidableEq

/-- The object `options` of the view: `{warnAtPercent: 85, errorAtPercent: 100}` in the
class definition. -/
structure Options where
  warnAtPercent : JSNumber
  errorAtPercent : JSNumber
  deriving DecidableEq

/-- The element built from `_templateQuotaMeter`:
`<div id="quota-meter" class="quota-meter progress">` holding
`<div class="progress-bar" style="width: P%">` and
`<div class="quota-meter-text" data-placement="left" style="top: 6px" [title=T]>` with the
link `<a href=... target="_blank">L P%</a>`.
The fields are the parts that are interpolated or changed through jQuery afterwards. -/
structure QuotaMeterEl where
  /-- The `class` attribute of the `.progress-bar` element. -/
  barClass : String
  /-- The value interpolated in `style="width: P%"`. -/
  barWidth : JSVal
  /-- The `title` attribute of `.quota-meter-text`, absent when there is no usage string. -/
  textTitle : Option String
  /-- The inline `color` of `.quota-meter-text` set through `.css`, absent in the template. -/
  textColor : Option String
  /-- The localized word in front of the percentage in the link. -/
  linkLabel : String
  /-- The percentage shown in the link. -/
  linkPercent : JSVal
  deriving DecidableEq

/-- The element built from `_templateUsage`:
`<div id="quota-meter" class="quota-meter" style="background-color: transparent">` holding
`<div class="quota-meter-text" ... style="top: 6px; color: white">TEXT</div>`. -/
structure UsageEl where
  text : String
  deriving DecidableEq

/-- What `render` puts in the root element of the meter. -/
inductive Rendered where
  | usage (e : UsageEl)
  | quota (e : QuotaMeterEl)
  deriving DecidableEq

/-- The state of one `UserQuotaMeter` view. -/
structure QuotaMeter where
  model : UserAttrs
  /-- The object that `this.options` resolves to. -/
  options : Options
  /-- The content of `this.$el`; `none` before the first render. -/
  el : Option Rendered
  /-- The log of events fired through `this.trigger`, oldest first, each with its argument. -/
  triggered : List (String × UserAttrs)
  /-- Whether `.tooltip()` was called on the `.quota-meter-text` element of `el`. -/
  tooltip : Bool
  deriving DecidableEq

/-- Truthiness of a value that is a string or `undefined`. -/
def truthy : Option String → Bool
  | none => false
  | some s => !s.isEmpty

/-- The white space characters of the regular expression `\s` that can separate event
names: space, tab, line feed, vertical tab, form feed, carriage return, no-break space. -/
def isSpace (c : Char) : Bool :=
  c = ' ' || c = '\t' || c = '\n' || c = Char.ofNat 11 || c = Char.ofNat 12 || c = '\r' ||
    c = Char.ofNat 160

/-- The loop of `names.split(/\s+/)`: `cur` is the current name, reversed, and `gap` tells
that the last character read was white space, whose run ends one name only. -/
def splitNamesAux : List Char → List Char → Bool → List String
  | [], cur, _ => [String.mk cur.reverse]
  | c :: cs, cur, gap =>
    if isSpace c then
      (if gap then splitNamesAux cs [] true
       else String.mk cur.reverse :: splitNamesAux cs [] true)
    else splitNamesAux cs (c :: cur) false

/-- The event names of a Backbone event string such as `"quota:under quota:under:ok"`:
Backbone splits the string with `names.split(/\s+/)`; a string without white space is
one name. -/
def splitNames (s : String) : List String := splitNamesAux s.toList [] false

namespace QuotaMeter

/-- Backbone `this.trigger(names, arg)`: fires every event named in the space separated
string `names`, in order, each with the argument `arg`. -/
def trigger (v : QuotaMeter) (names : String) (arg : UserAttrs) : QuotaMeter :=
  { v with triggered := v.triggered ++ (splitNames names).map (fun n => (n, arg)) }

/-- Source:
`isOverQuota: function(){ return null !== this.model.get("quota_percent")
   && this.model.get("quota_percent") >= this.options.errorAtPercent }`.
The body only reads, so the view returned with the answer is the view given. -/
def isOverQuota (v : QuotaMeter) : Bool × QuotaMeter :=
  (decide (v.model.quota_percent ≠ JSVal.null) &&
     v.model.quota_percent.ge v.options.errorAtPercent, v)

/-- Source: `_templateQuotaMeter: function(t)`; `l` is the localization function. -/
def _templateQuotaMeter (l : String → String) (t : UserAttrs) : QuotaMeterEl :=
  { barClass := "progress-bar"
    barWidth := t.quota_percent
    textTitle :=
      if truthy t.nice_total_disk_usage then
        some ("Using " ++ t.nice_total_disk_usage.getD "" ++ ". Click for details.")
      else none
    textColor := none
    linkLabel := l "Using"
    linkPercent := t.quota_percent }

/-- Source: `_templateUsage: function(t)`; `l` is the localization function. -/
def _templateUsage (l : String → String) (t : UserAttrs) : UsageEl :=
  { text :=
      if truthy t.nice_total_disk_usage then l "Using " ++ t.nice_total_disk_usage.getD ""
      else "" }

/-- Source: `_render_quota: function()`.  Returns the element and the view after the
events were fired. -/
def _render_quota (l : String → String) (v : QuotaMeter) : QuotaMeterEl × QuotaMeter :=
  let t := v.model
  let e := t.quota_percent
  let r := _templateQuotaMeter l t
  let (over, v) := isOverQuota v
  if over then
    ({ r with barClass := "progress-bar bg-danger", textColor := some "white" },
      v.trigger "quota:over" t)
  else if e.ge v.options.warnAtPercent then
    ({ r with barClass := "progress-bar bg-warning" },
      v.trigger "quota:under quota:under:approaching" t)
  else
    ({ r with barClass := "progress-bar bg-success" },
      v.trigger "quota:under quota:under:ok" t)

/-- Source: `_render_usage: function()`. -/
def _render_usage (l : String → String) (v : QuotaMeter) : UsageEl × QuotaMeter :=
  (_templateUsage l v.model, v)

/-- Source: `render: function()`. -/
def render (l : String → String) (v : QuotaMeter) : QuotaMeter :=
  let (t, v) : Rendered × QuotaMeter :=
    if v.model.quota_percent = JSVal.null ∨ v.model.quota_percent = JSVal.undefined then
      let (u, v) := _render_usage l v
      (Rendered.usage u, v)
    else
      let (q, v) := _render_quota l v
      (Rendered.quota q, v)
  { v with el := some t, tooltip := true }

end QuotaMeter

/-! ### Construction of meters -/

/-- The threshold keys of the configuration object handed to the constructor; `none`
when the key is not given. -/
structure Config where
  warnAtPercent : Option JSNumber
  errorAtPercent : Option JSNumber
  deriving DecidableEq

/-- Underscore `_.extend(o, t)` on the two threshold keys: every key given in `t` is
written into the object `o`. -/
def Options.extend (o : Options) (t : Config) : Options :=
  { warnAtPercent := t.warnAtPercent.getD o.warnAtPercent
    errorAtPercent := t.errorAtPercent.getD o.errorAtPercent }

/-- One constructed meter on the heap. -/
structure MeterInstance where
  /-- An own property `options` of the instance; `none` when the instance has none, in
  which case `this.options` is found on the prototype. -/
  ownOptions : Option Options
  model : UserAttrs
  deriving DecidableEq

/-- The objects shared by all meters: the `options` object literal of the class
definition, which lives on the prototype, and the meters constructed so far. -/
structure MeterHeap where
  protoOptions : Options
  instances : List MeterInstance
  deriving DecidableEq

namespace MeterHeap

/-- The heap right after the class definition was evaluated:
`options: {warnAtPercent: 85, errorAtPercent: 100}` and no instance. -/
def fresh : MeterHeap :=
  { protoOptions := { warnAtPercent := 85, errorAtPercent := 100 }, instances := [] }

/-- Source: `initialize: function(t){ ..., u.extend(this.options, t), this.listenTo(...) }`
run on the instance number `i`.  The merge writes into the object that `this.options`
resolves to: the own object of the instance if it has one, the object of the prototype
otherwise. -/
def initializeView (h : MeterHeap) (i : Nat) (t : Config) : MeterHeap :=
  match h.instances.get? i with
  | none => h
  | some m =>
    match m.ownOptions with
    | some o => { h with instances := h.instances.set i { m with ownOptions := some (o.extend t) } }
    | none => { h with protoOptions := h.protoOptions.extend t }

/-- The expression `new UserQuotaMeter({model: model, ...t})`: the constructor of
`Backbone.View` creates the instance, which gets no own `options` property (nothing in
the class assigns `this.options`), and calls `initialize` with the configuration. -/
def construct (h : MeterHeap) (model : UserAttrs) (t : Config) : MeterHeap :=
  initializeView { h with instances := h.instances ++ [{ ownOptions := none, model := model }] }
    h.instances.length t

/-- The object that `this.options` resolves to for the meter number `i`. -/
def optionsOf (h : MeterHeap) (i : Nat) : Option Options :=
  (h.instances.get? i).map (fun m => m.ownOptions.getD h.protoOptions)

/-- The view state of the meter number `i` before its first render. -/
def view (h : MeterHeap) (i : Nat) : Option QuotaMeter :=
  (h.instances.get? i).map (fun m =>
    { model := m.model, options := m.ownOptions.getD h.protoOptions, el := none,
      triggered := [], tooltip := false })

end MeterHeap

/-! ## The preferences panel (`user-preferences.js`) -/

/-- The sub-view modules the file depends on, in the order of its `define` list (bound to
`a`, `b`, `c`, `d`, `e`, `f` in the source). -/
inductive Module where
  | changeInformation
  | changePassword
  | changePermissions
  | changeApiKey
  | changeToolboxFilter
  | changeCommunication
  deriving DecidableEq

/-- The object handed to `_link`: `{title: ..., url: ..., module: ...}`.  A missing `url`
is `undefined` (`none`); `module: null` is `none`. -/
structure LinkSpec where
  title : String
  url : Option String
  module : Option Module
  deriving DecidableEq

/-- The response of `GET api/user_preferences`.  `id` is `none` when it is `null`;
`message` is `none` when the response has no such field. -/
structure AccountSummary where
  id : Option String
  email : String
  webapp : String
  remote_user : Bool
  openid : Bool
  disk_usage : String
  quota : String
  enable_quotas : Bool
  message : Option String

/-- The globals and library functions the panel reads: `Galaxy.root`, `Galaxy.user.id`
and `_.escape`. -/
structure Env where
  root : String
  userId : String
  escape : String → String

/-- The exceptions the code of the panel can raise. -/
inductive JSError where
  /-- An identifier that is bound nowhere was evaluated. -/
  | referenceError (name : String)
  /-- A value was used as an object, a function or a constructor that is none. -/
  | typeError (what : String)
  deriving DecidableEq

/-- The function values stored in `onclose`: the one closure of the file,
`function(){ b.$preferences.show() }`. -/
inductive Hook where
  | showPreferences
  deriving DecidableEq

/-- The data of a successful response as jQuery hands it to the callbacks. -/
inductive ResponseData where
  /-- A response without content (status 204): the data is `undefined`. -/
  | undefined
  /-- The JSON value `null`. -/
  | null
  /-- A string, number or boolean: a text response or a JSON value that is no object;
  `text` is its content. -/
  | primitive (text : String)
  /-- A JSON object or array; `body` is its content. -/
  | object (body : String)
  deriving DecidableEq

/-- How the request of a link ended. -/
inductive Completion where
  /-- The request succeeded with the response `data`. -/
  | success (data : ResponseData)
  /-- The request failed; `status` is the status text of the jqXHR object. -/
  | failure (status : String)
  deriving DecidableEq

/-- The objects that can be the first argument of an `.always` callback. -/
inductive ArgObject where
  /-- The response data of a request that succeeded. -/
  | data (body : String)
  /-- The jqXHR object of a request that failed. -/
  | jqXHR (status : String)
  deriving DecidableEq

/-- The first argument `c` of an `.always` callback.  Only an object has properties, so
only an object carries the value of `onclose`, `none` while nothing was assigned. -/
inductive CallbackArg where
  | undefined
  | null
  | primitive (text : String)
  | object (o : ArgObject) (onclose : Option Hook)
  deriving DecidableEq

/-- The first argument jQuery hands to an `.always` callback: the response data when the
request succeeded, the jqXHR object when it failed. -/
def Completion.arg : Completion → CallbackArg
  | Completion.success ResponseData.undefined => CallbackArg.undefined
  | Completion.success ResponseData.null => CallbackArg.null
  | Completion.success (ResponseData.primitive t) => CallbackArg.primitive t
  | Completion.success (ResponseData.object body) => CallbackArg.object (ArgObject.data body) none
  | Completion.failure status => CallbackArg.object (ArgObject.jqXHR status) none

/-- Whether the value is `undefined` or `null`, on which a property can be neither read
nor assigned. -/
def CallbackArg.isNullish : CallbackArg → Bool
  | CallbackArg.undefined => true
  | CallbackArg.null => true
  | _ => false

/-- The assignment `c.onclose = f` in code that is not strict (the file has no
`"use strict"`): `none` stands for the `TypeError` raised when `c` is `undefined` or
`null`; on a primitive value the assignment is dropped and `c` is as before; on an
object the property is set. -/
def CallbackArg.assignOnclose (c : CallbackArg) (f : Hook) : Option CallbackArg :=
  match c with
  | CallbackArg.undefined => none
  | CallbackArg.null => none
  | CallbackArg.primitive t => some (CallbackArg.primitive t)
  | CallbackArg.object o _ => some (CallbackArg.object o (some f))

/-- A sub-view `new a.module(c)`: the module and the object it was constructed with. -/
structure SubView where
  module : Module
  arg : CallbackArg
  deriving DecidableEq

/-- A child of the element `$preferences`. -/
inductive Node where
  /-- An HTML fragment appended as a string. -/
  | html (s : String)
  /-- The element `<ul/>` that is also held in `$pages`. -/
  | pages
  deriving DecidableEq

/-- The element `$preferences`. -/
structure PrefEl where
  children : List Node
  /-- Is false after `.hide()`, true after `.show()` and for a new element. -/
  visible : Bool
  deriving DecidableEq

/-- A child of the root element `$el` of the panel. -/
inductive RootChild where
  /-- The element held in `$preferences`. -/
  | preferences
  /-- The root element of a sub-view. -/
  | subview (s : SubView)
  deriving DecidableEq

/-- The state of one `UserPreferences` view. -/
structure Panel where
  /-- The property `$preferences`; `none` while it is `undefined`. -/
  preferences : Option PrefEl
  /-- The links in the `<li>` items of `$pages`, in order; `none` while `$pages` is
  `undefined`. -/
  pages : Option (List LinkSpec)
  /-- The children of the root element `$el`. -/
  root : List RootChild
  /-- The URLs of the GET requests issued so far. -/
  requests : List String
  deriving DecidableEq

/-- The outcome of running a piece of code: the state reached and the exception that
stopped it, if any. -/
structure Run where
  panel : Panel
  error : Option JSError
  deriving DecidableEq

namespace Run

/-- Sequencing: the next statement runs only when no exception was thrown. -/
def andThen (r : Run) (f : Panel → Run) : Run :=
  match r.error with
  | some _ => r
  | none => f r.panel

end Run

namespace UserPreferences

/-- Source: `initialize: function(){ this.setElement("<div/>"), this.render() }`, up to
the call of `render`: an empty root element. -/
def created : Panel :=
  { preferences := none, pages := none, root := [], requests := [] }

/-- Appends a child to `$preferences`; a `TypeError` when `$preferences` is `undefined`. -/
def appendPref (g : Panel) (n : Node) : Run :=
  match g.preferences with
  | none => { panel := g, error := some (JSError.typeError "g.$preferences is undefined") }
  | some p =>
    { panel := { g with preferences := some { p with children := p.children ++ [n] } },
      error := none }

/-- Source: `_link: function(a)`: creates the anchor with its click handler and appends
`<li>` with the anchor to `$pages`.  The click handler is `click` followed, when the
request ends, by `always`. -/
def _link (g : Panel) (a : LinkSpec) : Run :=
  match g.pages with
  | none => { panel := g, error := some (JSError.typeError "this.$pages is undefined") }
  | some ps => { panel := { g with pages := some (ps ++ [a]) }, error := none }

/-- The click handler of a link, up to the request:
`$.ajax({url: Galaxy.root + a.url, type: "GET"})`.  A missing `url` is concatenated as
the string `undefined`. -/
def click (env : Env) (a : LinkSpec) (b : Panel) : Panel :=
  { b with requests := b.requests ++ [env.root ++ a.url.getD "undefined"] }

/-- The callback registered with `.always`, which jQuery calls when the request ended,
whether it succeeded or failed:
`function(c){ b.$preferences.hide(), c.onclose = function(){ b.$preferences.show() },
   b.$el.append(new a.module(c).$el) }`.
The three expressions run in this order, and a `TypeError` stops the callback with the
effects of the expressions before it: assigning to `undefined` or `null`, `new null(c)`.
A sub-view constructor is taken to return. -/
def always (a : LinkSpec) (c : CallbackArg) (b : Panel) : Run :=
  match b.preferences with
  | none => { panel := b, error := some (JSError.typeError "b.$preferences is undefined") }
  | some p =>
    let b := { b with preferences := some { p with visible := false } }
    match c.assignOnclose Hook.showPreferences with
    | none => { panel := b, error := some (JSError.typeError "c is undefined or null") }
    | some c =>
      match a.module with
      | none => { panel := b, error := some (JSError.typeError "a.module is not a constructor") }
      | some m =>
        { panel := { b with root := b.root ++ [RootChild.subview { module := m, arg := c }] },
          error := none }

/-- Activating a link whose request ends with `k`: the click handler, then the callback
with the value jQuery passes for that completion. -/
def activate (env : Env) (a : LinkSpec) (k : Completion) (b : Panel) : Run :=
  always a k.arg (click env a b)

/-- Calling a function stored in `onclose`. -/
def runHook (f : Hook) (b : Panel) : Run :=
  match f with
  | Hook.showPreferences =>
    match b.preferences with
    | none => { panel := b, error := some (JSError.typeError "b.$preferences is undefined") }
    | some p => { panel := { b with preferences := some { p with visible := true } }, error := none }

/-- The call `c.onclose()` a sub-view makes when it closes: a `TypeError` unless `c` is an
object whose `onclose` holds a function. -/
def callOnclose (c : CallbackArg) (b : Panel) : Run :=
  match c with
  | CallbackArg.object _ (some f) => runHook f b
  | _ => { panel := b, error := some (JSError.typeError "c.onclose is not a function") }

/-- Source: `render: function()`, up to the request: `$.getJSON(Galaxy.root +
"api/user_preferences", callback)`. -/
def render (env : Env) (g : Panel) : Panel :=
  { g with requests := g.requests ++ [env.root ++ "api/user_preferences"] }

/-- The links of the branch `h.remote_user || (...)`. -/
def accountLinks (env : Env) (g : Panel) : Run :=
  (_link g { title := "Manage your information (email, address, etc.)",
             url := some ("api/user_preferences/" ++ env.userId ++ "/information"),
             module := some Module.changeInformation }).andThen fun g =>
  _link g { title := "Change your password",
            url := some ("api/user_preferences/" ++ env.userId ++ "/password"),
            module := some Module.changePassword }

/-- The links of the branch `"galaxy" == h.webapp ? (...)`. -/
def galaxyLinks (env : Env) (h : AccountSummary) (g : Panel) : Run :=
  (_link g { title := "Change your communication settings",
             url := some ("api/user_preferences/" ++ env.userId ++ "/communication"),
             module := some Module.changeCommunication }).andThen fun g =>
  (_link g { title := "Change default permissions for new histories",
             url := some "api/user_preferences/change-permissions",
             module := some Module.changePermissions }).andThen fun g =>
  (_link g { title := "Manage your API keys",
             url := some ("api/user_preferences/" ++ env.userId ++ "/api_key"),
             module := some Module.changeApiKey }).andThen fun g =>
  (_link g { title := "Manage your ToolBox filters",
             url := some "api/user_preferences/change_toolbox_filters",
             module := some Module.changeToolboxFilter }).andThen fun g =>
  if h.openid && !h.remote_user then
    _link g { title := "Manage OpenIDs linked to your account", url := none, module := none }
  else { panel := g, error := none }

/-- The links of the branch `"galaxy" == h.webapp ? ... : (...)`. -/
def otherLinks (g : Panel) : Run :=
  (_link g { title := "Manage your API keys", url := none,
             module := some Module.changeApiKey }).andThen fun g =>
  _link g { title := "Manage your email alerts", url := none, module := none }

/-- The paragraph appended when `"galaxy" == h.webapp`. -/
def usageParagraph (h : AccountSummary) : String :=
  let i := "<p>You are using <strong>" ++ h.disk_usage ++
    "</strong> of disk space in this Galaxy instance."
  let i := if h.enable_quotas then i ++ "Your disk quota is: <strong>" ++ h.quota ++ "</strong>."
           else i
  i ++ "Is your usage more than expected?  See the <a href=\"https://wiki.galaxyproject.org/Learn/ManagingDatasets\" target=\"_blank\">documentation</a> for tips on how to find all of the data in your account.</p>"

/-- Source: the callback `function(h)` that `render` registers with `$.getJSON`.

In the branch of `null !== h.id` being false the statement is the comma expression
`h.message || g.$preferences.append(notice), $preferences(list)`; the identifier
`$preferences` is bound nowhere, so evaluating it raises a `ReferenceError`, and the last
statement `g.$el.empty().append(g.$preferences)` is not reached. -/
def renderCallback (env : Env) (g : Panel) (h : AccountSummary) : Run :=
  let g := { g with preferences := some { children := [], visible := true } }
  if h.id ≠ none then
    (appendPref g (Node.html "<h2>User preferences</h2>")).andThen fun g =>
    (appendPref g (Node.html ("<p>You are currently logged in as " ++ env.escape h.email ++
      ".</p>"))).andThen fun g =>
    (appendPref { g with pages := some [] } Node.pages).andThen fun g =>
    (if h.remote_user then { panel := g, error := none } else accountLinks env g).andThen fun g =>
    (if h.webapp = "galaxy" then galaxyLinks env h g else otherLinks g).andThen fun g =>
    (if h.webapp = "galaxy" then appendPref g (Node.html (usageParagraph h))
     else { panel := g, error := none }).andThen fun g =>
    { panel := { g with root := [RootChild.preferences] }, error := none }
  else
    (if truthy h.message then { panel := g, error := none }
     else appendPref g (Node.html "<p>You are currently not logged in.</p>")).andThen fun g =>
    { panel := g, error := some (JSError.referenceError "$preferences") }

end UserPreferences

/-! ## Sample data -/

/-- A meter that has not rendered yet, whose model holds the number `q` in
`quota_percent` and whose `options` hold the thresholds `warn` and `err`. -/
def meterAt (q warn err : JSNumber) : QuotaMeter :=
  { model := { id := some "f2db41e1fa331b3e", quota_percent := JSVal.num q,
               total_disk_usage := 1024, nice_total_disk_usage := some "1.0 KB" }
    options := { warnAtPercent := warn, errorAtPercent := err }
    el := none, triggered := [], tooltip := false }

/-- A meter that has not rendered yet, with the default thresholds, whose model holds
`quota_percent` and `nice_total_disk_usage` as given. -/
def meterWith (q : JSVal) (nice : Option String) : QuotaMeter :=
  { model := { id := some "f2db41e1fa331b3e", quota_percent := q,
               total_disk_usage := 1024, nice_total_disk_usage := nice }
    options := { warnAtPercent := 85, errorAtPercent := 100 }
    el := none, triggered := [], tooltip := false }

/-- A user model with the number `q` in `quota_percent`. -/
def userAt (q : JSNumber) : UserAttrs :=
  { id := some "f2db41e1fa331b3e", quota_percent := JSVal.num q,
    total_disk_usage := 1024, nice_total_disk_usage := some "1.0 KB" }


/-- The link titles the specification lists for a logged-in account, in order. -/
def claimedLinkTitles (h : AccountSummary) : List String :=
  (if h.remote_user = false then
    ["Manage your information (email, address, etc.)", "Change your password"]
   else []) ++
  (if h.webapp = "galaxy" then
    ["Change your communication settings", "Change default permissions for new histories",
     "Manage your API keys", "Manage your ToolBox filters"] ++
    (if h.openid = true ∧ h.remote_user = false then ["Manage OpenIDs linked to your account"]
     else [])
   else ["Manage your API keys", "Manage your email alerts"])

/-- An environment: the application is served from `/`, the user has the id `42`, and
`_.escape` leaves a text without special characters as it is. -/
def env0 : Env := { root := "/", userId := "42", escape := id }

/-- A logged-in account of a non-galaxy webapp with a remote user. -/
def summaryOther : AccountSummary :=
  { id := some "42", email := "user@example.org", webapp := "other", remote_user := true,
    openid := false, disk_usage := "1.0 KB", quota := "unlimited", enable_quotas := false,
    message := none }

/-- A logged-in account of the galaxy webapp with OpenID and quotas. -/
def summaryGalaxy : AccountSummary :=
  { id := some "42", email := "user@example.org", webapp := "galaxy", remote_user := false,
    openid := true, disk_usage := "1.0 KB", quota := "250 MB", enable_quotas := true,
    message := none }

/-- The panel of `summaryGalaxy` after construction and the response of the server. -/
def panelGalaxy : Panel :=
  (UserPreferences.renderCallback env0 (UserPreferences.render env0 UserPreferences.created)
    summaryGalaxy).panel

/-- The link `Change your password` as `render` creates it for the user `42`. -/
def passwordLink : LinkSpec :=
  { title := "Change your password", url := some "api/user_preferences/42/password",
    module := some Module.changePassword }

/-! ## Lemmas on the relational operators and on event strings -/

theorem JSNumber.ge_eq_false_of_lt {a b : JSNumber} (h : a.lt b = true) : a.ge b = false := by
  cases a <;> cases b <;> simp_all [JSNumber.lt, JSNumber.ge]

theorem JSNumber.ge_of_le {a b : JSNumber} (h : a.le b = true) : b.ge a = true := by
  cases a <;> cases b <;> simp_all [JSNumber.le, JSNumber.ge]

theorem JSNumber.ge_eq_false_of_lt_of_le {a b c : JSNumber} (h : a.lt b = true)
    (h2 : b.le c = true) : a.ge c = false := by
  cases a <;> cases b <;> cases c <;> simp_all [JSNumber.lt, JSNumber.le, JSNumber.ge]
  exact lt_of_lt_of_le h h2

theorem truthy_iff (o : Option String) : truthy o = true ↔ ∃ s, o = some s ∧ s ≠ "" := by
  cases o with
  | none => simp [truthy]
  | some s =>
    have h := String.isEmpty_iff s
    by_cases he : s = "" <;> simp_all [truthy]

theorem splitNames_over : splitNames "quota:over" = ["quota:over"] := by decide

theorem splitNames_approaching :
    splitNames "quota:under quota:under:approaching" =
      ["quota:under", "quota:under:approaching"] := by decide

theorem splitNames_ok :
    splitNames "quota:under quota:under:ok" = ["quota:under", "quota:under:ok"] := by decide

/-- With a number in `quota_percent`, `render` puts the element of `_render_quota` in the
root element and keeps the events it fired. -/
theorem QuotaMeter.render_of_num (l : String → String) (v : QuotaMeter) (n : JSNumber)
    (hq : v.model.quota_percent = JSVal.num n) :
    (QuotaMeter.render l v).el = some (Rendered.quota (QuotaMeter._render_quota l v).1) ∧
    (QuotaMeter.render l v).triggered = (QuotaMeter._render_quota l v).2.triggered := by
  simp [QuotaMeter.render, hq]

/-! ## Theorems on the quota meter -/

/-- C1: when `quota_percent` is a number with `quota_percent >= errorAtPercent`, the
element of `_render_quota`, which `render` puts in the root element, is the quota meter
template with the class of the bar set to `progress-bar bg-danger` and the colour of the
text set to `white`; the events fired are exactly `quota:over` with the model snapshot,
so no `quota:under` event is added to the log; `isOverQuota()` answers true. -/
theorem render_over (l : String → String) (v : QuotaMeter) (n : JSNumber)
    (hq : v.model.quota_percent = JSVal.num n)
    (hge : n.ge v.options.errorAtPercent = true) :
    (QuotaMeter.isOverQuota v).1 = true ∧
    (QuotaMeter._render_quota l v).1 =
      { QuotaMeter._templateQuotaMeter l v.model with
        barClass := "progress-bar bg-danger", textColor := some "white" } ∧
    (QuotaMeter._render_quota l v).2 =
      { v with triggered := v.triggered ++ [("quota:over", v.model)] } ∧
    (QuotaMeter.render l v).el = some (Rendered.quota
      { QuotaMeter._templateQuotaMeter l v.model with
        barClass := "progress-bar bg-danger", textColor := some "white" }) ∧
    (QuotaMeter.render l v).triggered = v.triggered ++ [("quota:over", v.model)] ∧
    (∀ a, ("quota:under", a) ∈ (QuotaMeter.render l v).triggered →
      ("quota:under", a) ∈ v.triggered) := by
  have h1 : (QuotaMeter._render_quota l v).1 =
      { QuotaMeter._templateQuotaMeter l v.model with
        barClass := "progress-bar bg-danger", textColor := some "white" } := by
    simp [QuotaMeter._render_quota, QuotaMeter.isOverQuota, hq, JSVal.ge, JSVal.toNumber, hge]
  have h2 : (QuotaMeter._render_quota l v).2 =
      { v with triggered := v.triggered ++ [("quota:over", v.model)] } := by
    simp [QuotaMeter._render_quota, QuotaMeter.isOverQuota, hq, JSVal.ge, JSVal.toNumber, hge,
      QuotaMeter.trigger, splitNames_over]
  obtain ⟨h3, h4⟩ := QuotaMeter.render_of_num l v n hq
  rw [h1] at h3
  rw [h2] at h4
  refine ⟨?_, h1, h2, h3, h4, ?_⟩
  · simp [QuotaMeter.isOverQuota, hq, JSVal.ge, JSVal.toNumber, hge]
  · intro a ha
    rw [h4] at ha
    simpa using ha

theorem render_over_witness :
    (meterAt 100 85 100).model.quota_percent = JSVal.num 100 ∧
    JSNumber.ge 100 (meterAt 100 85 100).options.errorAtPercent = true ∧
    (QuotaMeter.render id (meterAt 100 85 100)).el = some (Rendered.quota
      { QuotaMeter._templateQuotaMeter id (meterAt 100 85 100).model with
        barClass := "progress-bar bg-danger", textColor := some "white" }) ∧
    (QuotaMeter.render id (meterAt 100 85 100)).triggered =
      [("quota:over", (meterAt 100 85 100).model)] :=
  ⟨rfl, by decide,
   (render_over id (meterAt 100 85 100) 100 rfl (by decide)).2.2.2.1,
   (render_over id (meterAt 100 85 100) 100 rfl (by decide)).2.2.2.2.1⟩

/-- C2: `isOverQuota()` answers true exactly when `quota_percent` is a number `n` (so
neither `null` nor absent) with `n >= errorAtPercent`; it answers false when
`quota_percent` is `null` or `undefined`; and the view, with its model, root element and
event log, is the same after the call. -/
theorem isOverQuota_iff (v : QuotaMeter) :
    ((QuotaMeter.isOverQuota v).1 = true ↔
      ∃ n, v.model.quota_percent = JSVal.num n ∧ n.ge v.options.errorAtPercent = true) ∧
    ((QuotaMeter.isOverQuota v).1 = true ↔
      v.model.quota_percent ≠ JSVal.null ∧
        v.model.quota_percent.ge v.options.errorAtPercent = true) ∧
    (v.model.quota_percent = JSVal.null ∨ v.model.quota_percent = JSVal.undefined →
      (QuotaMeter.isOverQuota v).1 = false) ∧
    (QuotaMeter.isOverQuota v).2 = v := by
  refine ⟨?_, ?_, ?_, rfl⟩
  · cases hq : v.model.quota_percent <;>
      simp [QuotaMeter.isOverQuota, hq, JSVal.ge, JSVal.toNumber, JSNumber.ge]
  · simp [QuotaMeter.isOverQuota]
  · rintro (hq | hq) <;>
      simp [QuotaMeter.isOverQuota, hq, JSVal.ge, JSVal.toNumber, JSNumber.ge]

theorem isOverQuota_iff_witness :
    (QuotaMeter.isOverQuota (meterWith JSVal.undefined none)).1 = false ∧
    (QuotaMeter.isOverQuota (meterWith JSVal.null none)).1 = false ∧
    (QuotaMeter.isOverQuota (meterAt 100 85 100)).1 = true :=
  ⟨(isOverQuota_iff (meterWith JSVal.undefined none)).2.2.1 (Or.inr rfl),
   (isOverQuota_iff (meterWith JSVal.null none)).2.2.1 (Or.inl rfl),
   (isOverQuota_iff (meterAt 100 85 100)).1.2 ⟨100, rfl, by decide⟩⟩

/-- C3: when `quota_percent` is a number with `warnAtPercent <= quota_percent` and
`quota_percent < errorAtPercent`, the element of `_render_quota`, which `render` puts in
the root element, is the quota meter template with the class of the bar set to
`progress-bar bg-warning`, and the events fired are exactly `quota:under` and
`quota:under:approaching`, each with the model snapshot. -/
theorem render_approaching (l : String → String) (v : QuotaMeter) (n : JSNumber)
    (hq : v.model.quota_percent = JSVal.num n)
    (hwarn : v.options.warnAtPercent.le n = true)
    (herr : n.lt v.options.errorAtPercent = true) :
    (QuotaMeter._render_quota l v).1 =
      { QuotaMeter._templateQuotaMeter l v.model with barClass := "progress-bar bg-warning" } ∧
    (QuotaMeter._render_quota l v).2 =
      { v with triggered := v.triggered ++
          [("quota:under", v.model), ("quota:under:approaching", v.model)] } ∧
    (QuotaMeter.render l v).el = some (Rendered.quota
      { QuotaMeter._templateQuotaMeter l v.model with barClass := "progress-bar bg-warning" }) ∧
    (QuotaMeter.render l v).triggered = v.triggered ++
      [("quota:under", v.model), ("quota:under:approaching", v.model)] := by
  have hno := JSNumber.ge_eq_false_of_lt herr
  have hyes := JSNumber.ge_of_le hwarn
  have h1 : (QuotaMeter._render_quota l v).1 =
      { QuotaMeter._templateQuotaMeter l v.model with
        barClass := "progress-bar bg-warning" } := by
    simp [QuotaMeter._render_quota, QuotaMeter.isOverQuota, hq, JSVal.ge, JSVal.toNumber,
      hno, hyes]
  have h2 : (QuotaMeter._render_quota l v).2 =
      { v with triggered := v.triggered ++
          [("quota:under", v.model), ("quota:under:approaching", v.model)] } := by
    simp [QuotaMeter._render_quota, QuotaMeter.isOverQuota, hq, JSVal.ge, JSVal.toNumber,
      hno, hyes, QuotaMeter.trigger, splitNames_approaching]
  obtain ⟨h3, h4⟩ := QuotaMeter.render_of_num l v n hq
  rw [h1] at h3
  rw [h2] at h4
  exact ⟨h1, h2, h3, h4⟩

theorem render_approaching_witness :
    JSNumber.le (meterAt 85 85 100).options.warnAtPercent 85 = true ∧
    JSNumber.lt 85 (meterAt 85 85 100).options.errorAtPercent = true ∧
    (QuotaMeter.render id (meterAt 85 85 100)).el = some (Rendered.quota
      { QuotaMeter._templateQuotaMeter id (meterAt 85 85 100).model with
        barClass := "progress-bar bg-warning" }) ∧
    (QuotaMeter.render id (meterAt 85 85 100)).triggered =
      [("quota:under", (meterAt 85 85 100).model),
       ("quota:under:approaching", (meterAt 85 85 100).model)] :=
  ⟨by decide, by decide,
   (render_approaching id (meterAt 85 85 100) 85 rfl (by decide) (by decide)).2.2.1,
   (render_approaching id (meterAt 85 85 100) 85 rfl (by decide) (by decide)).2.2.2⟩

/-- C4, as the code has it: when `quota_percent` is a number with
`quota_percent < warnAtPercent` and `quota_percent >= errorAtPercent` is false, the
element of `_render_quota`, which `render` puts in the root element, is the quota meter
template with the class of the bar set to `progress-bar bg-success` and no colour set on
the text, and the events fired are exactly `quota:under` and `quota:under:ok`, each with
the model snapshot, so that neither `quota:over` nor `quota:under:approaching` is added
to the log.  The second condition holds for every meter with
`warnAtPercent <= errorAtPercent`: there `quota_percent < warnAtPercent` makes
`isOverQuota()` false. -/
theorem render_ok (l : String → String) (v : QuotaMeter) (n : JSNumber)
    (hq : v.model.quota_percent = JSVal.num n)
    (hwarn : n.lt v.options.warnAtPercent = true)
    (herr : n.ge v.options.errorAtPercent = false) :
    (QuotaMeter._render_quota l v).1 =
      { QuotaMeter._templateQuotaMeter l v.model with barClass := "progress-bar bg-success" } ∧
    (QuotaMeter._render_quota l v).2 =
      { v with triggered := v.triggered ++
          [("quota:under", v.model), ("quota:under:ok", v.model)] } ∧
    (QuotaMeter.render l v).el = some (Rendered.quota
      { QuotaMeter._templateQuotaMeter l v.model with barClass := "progress-bar bg-success" }) ∧
    (QuotaMeter.render l v).triggered = v.triggered ++
      [("quota:under", v.model), ("quota:under:ok", v.model)] ∧
    (∀ a, ("quota:over", a) ∈ (QuotaMeter.render l v).triggered →
      ("quota:over", a) ∈ v.triggered) ∧
    (∀ a, ("quota:under:approaching", a) ∈ (QuotaMeter.render l v).triggered →
      ("quota:under:approaching", a) ∈ v.triggered) ∧
    (∀ w : QuotaMeter, w.model.quota_percent = JSVal.num n →
      n.lt w.options.warnAtPercent = true →
      w.options.warnAtPercent.le w.options.errorAtPercent = true →
      (QuotaMeter.isOverQuota w).1 = false) := by
  have hno := JSNumber.ge_eq_false_of_lt hwarn
  have h1 : (QuotaMeter._render_quota l v).1 =
      { QuotaMeter._templateQuotaMeter l v.model with
        barClass := "progress-bar bg-success" } := by
    simp [QuotaMeter._render_quota, QuotaMeter.isOverQuota, hq, JSVal.ge, JSVal.toNumber,
      hno, herr]
  have h2 : (QuotaMeter._render_quota l v).2 =
      { v with triggered := v.triggered ++
          [("quota:under", v.model), ("quota:under:ok", v.model)] } := by
    simp [QuotaMeter._render_quota, QuotaMeter.isOverQuota, hq, JSVal.ge, JSVal.toNumber,
      hno, herr, QuotaMeter.trigger, splitNames_ok]
  obtain ⟨h3, h4⟩ := QuotaMeter.render_of_num l v n hq
  rw [h1] at h3
  rw [h2] at h4
  refine ⟨h1, h2, h3, h4, ?_, ?_, ?_⟩
  · intro a ha
    rw [h4] at ha
    simpa using ha
  · intro a ha
    rw [h4] at ha
    simpa using ha
  · intro w hw h1w h2w
    simp [QuotaMeter.isOverQuota, hw, JSVal.ge, JSVal.toNumber,
      JSNumber.ge_eq_false_of_lt_of_le h1w h2w]

theorem render_ok_witness :
    JSNumber.lt 50 (meterAt 50 85 100).options.warnAtPercent = true ∧
    JSNumber.ge 50 (meterAt 50 85 100).options.errorAtPercent = false ∧
    (QuotaMeter.render id (meterAt 50 85 100)).el = some (Rendered.quota
      { QuotaMeter._templateQuotaMeter id (meterAt 50 85 100).model with
        barClass := "progress-bar bg-success" }) ∧
    (QuotaMeter.render id (meterAt 50 85 100)).triggered =
      [("quota:under", (meterAt 50 85 100).model),
       ("quota:under:ok", (meterAt 50 85 100).model)] :=
  ⟨by decide, by decide,
   (render_ok id (meterAt 50 85 100) 50 rfl (by decide) (by decide)).2.2.1,
   (render_ok id (meterAt 50 85 100) 50 rfl (by decide) (by decide)).2.2.2.1⟩

/-- C4 as stated fails: with `warnAtPercent = 100` and `errorAtPercent = 50`, the
percentage `70` is below the warn threshold, yet `render` produces the danger styling with
white text and fires `quota:over` only; the class of the bar is not
`progress-bar bg-success` and no `quota:under` event is fired. -/
theorem render_ok_fails_above_error :
    JSNumber.lt 70 (meterAt 70 100 50).options.warnAtPercent = true ∧
    (QuotaMeter.render id (meterAt 70 100 50)).el = some (Rendered.quota
      { QuotaMeter._templateQuotaMeter id (meterAt 70 100 50).model with
        barClass := "progress-bar bg-danger", textColor := some "white" }) ∧
    (QuotaMeter._render_quota id (meterAt 70 100 50)).1.barClass ≠ "progress-bar bg-success" ∧
    (QuotaMeter.render id (meterAt 70 100 50)).triggered =
      [("quota:over", (meterAt 70 100 50).model)] ∧
    ("quota:under", (meterAt 70 100 50).model) ∉
      (QuotaMeter.render id (meterAt 70 100 50)).triggered := by
  decide

/-- C5: `render` chooses the template by `quota_percent` alone.  When it is `null` or
`undefined`, the root element gets the element of `_templateUsage`, whose text is the
localized `Using ` followed by `nice_total_disk_usage` when that is a non-empty string and
is empty otherwise (with the identity localization: `Using ` itself), and no event is
fired.  When it is a number, the root element gets the quota meter template, with the
class of the bar and the colour of the text as set by `_render_quota`. -/
theorem render_template_choice (l : String → String) (v : QuotaMeter) :
    (v.model.quota_percent = JSVal.null ∨ v.model.quota_percent = JSVal.undefined →
      (QuotaMeter.render l v).el = some (Rendered.usage (QuotaMeter._templateUsage l v.model)) ∧
      (QuotaMeter.render l v).triggered = v.triggered) ∧
    (∀ s, v.model.nice_total_disk_usage = some s → s ≠ "" →
      (QuotaMeter._templateUsage l v.model).text = l "Using " ++ s ∧
      (QuotaMeter._templateUsage id v.model).text = "Using " ++ s) ∧
    (v.model.nice_total_disk_usage = none ∨ v.model.nice_total_disk_usage = some "" →
      (QuotaMeter._templateUsage l v.model).text = "") ∧
    (∀ n, v.model.quota_percent = JSVal.num n →
      ∃ c col, (QuotaMeter.render l v).el = some (Rendered.quota
        { QuotaMeter._templateQuotaMeter l v.model with barClass := c, textColor := col })) := by
  refine ⟨?_, ?_, ?_, ?_⟩
  · rintro (hq | hq) <;> simp [QuotaMeter.render, QuotaMeter._render_usage, hq]
  · intro s hs hne
    have ht : truthy (some s) = true := (truthy_iff _).2 ⟨s, rfl, hne⟩
    simp [QuotaMeter._templateUsage, hs, ht]
  · rintro (hn | hn)
    · simp [QuotaMeter._templateUsage, hn, truthy]
    · have ht : truthy (some "") = false := by decide
      simp [QuotaMeter._templateUsage, hn, ht]
  · intro n hq
    refine ⟨(QuotaMeter._render_quota l v).1.barClass,
      (QuotaMeter._render_quota l v).1.textColor, ?_⟩
    rw [(QuotaMeter.render_of_num l v n hq).1]
    simp only [QuotaMeter._render_quota, QuotaMeter.isOverQuota]
    split <;> [skip; split] <;> rfl

theorem render_template_choice_witness :
    (QuotaMeter.render id (meterWith JSVal.null (some "1.0 KB"))).el =
      some (Rendered.usage { text := "Using 1.0 KB" }) ∧
    (QuotaMeter.render id (meterWith JSVal.null (some "1.0 KB"))).triggered = [] ∧
    (QuotaMeter.render id (meterWith JSVal.undefined none)).el =
      some (Rendered.usage { text := "" }) ∧
    (QuotaMeter.render id (meterWith JSVal.undefined none)).triggered = [] ∧
    (∃ c col, (QuotaMeter.render id (meterWith (JSVal.num 10) none)).el =
      some (Rendered.quota
        { QuotaMeter._templateQuotaMeter id (meterWith (JSVal.num 10) none).model with
          barClass := c, textColor := col })) :=
  ⟨((render_template_choice id (meterWith JSVal.null (some "1.0 KB"))).1 (Or.inl rfl)).1,
   ((render_template_choice id (meterWith JSVal.null (some "1.0 KB"))).1 (Or.inl rfl)).2,
   ((render_template_choice id (meterWith JSVal.undefined none)).1 (Or.inr rfl)).1,
   ((render_template_choice id (meterWith JSVal.undefined none)).1 (Or.inr rfl)).2,
   (render_template_choice id (meterWith (JSVal.num 10) none)).2.2.2 10 rfl⟩

/-- C8 at the failing input: a meter constructed with the thresholds `50` and `60`, then
a meter constructed with no threshold configuration.  The second meter reads `50` and
`60`, not `85` and `100`, and renders `quota_percent = 70` with the danger styling and
`quota:over`.  In the other order, the thresholds of the meter constructed first with no
configuration change from `85` and `100` to `50` and `60` when the second is constructed. -/
theorem construct_shares_options :
    MeterHeap.optionsOf
      (MeterHeap.construct
        (MeterHeap.construct MeterHeap.fresh (userAt 70)
          { warnAtPercent := some 50, errorAtPercent := some 60 })
        (userAt 70) { warnAtPercent := none, errorAtPercent := none }) 1 =
      some { warnAtPercent := 50, errorAtPercent := 60 } ∧
    (MeterHeap.view
      (MeterHeap.construct
        (MeterHeap.construct MeterHeap.fresh (userAt 70)
          { warnAtPercent := some 50, errorAtPercent := some 60 })
        (userAt 70) { warnAtPercent := none, errorAtPercent := none }) 1).map
        (fun v => ((QuotaMeter.render id v).el, (QuotaMeter.render id v).triggered)) =
      some (some (Rendered.quota
        { QuotaMeter._templateQuotaMeter id (userAt 70) with
          barClass := "progress-bar bg-danger", textColor := some "white" }),
        [("quota:over", userAt 70)]) ∧
    MeterHeap.optionsOf
      (MeterHeap.construct MeterHeap.fresh (userAt 70)
        { warnAtPercent := none, errorAtPercent := none }) 0 =
      some { warnAtPercent := 85, errorAtPercent := 100 } ∧
    MeterHeap.optionsOf
      (MeterHeap.construct
        (MeterHeap.construct MeterHeap.fresh (userAt 70)
          { warnAtPercent := none, errorAtPercent := none })
        (userAt 70) { warnAtPercent := some 50, errorAtPercent := some 60 }) 0 =
      some { warnAtPercent := 50, errorAtPercent := 60 } := by
  decide

/-! ## Theorems on the preferences panel -/

/-- C6: for a logged-in account the callback of `render` ends without an exception, puts
the preferences element in the root element, and the titles of the links in the page
list are, in order, the ones the specification lists.  `Manage your API keys` is always
among them, and for a remote user of a webapp other than galaxy the list is exactly
`Manage your API keys` and `Manage your email alerts`. -/
theorem render_link_titles (env : Env) (g : Panel) (h : AccountSummary) (hid : h.id ≠ none) :
    (UserPreferences.renderCallback env g h).error = none ∧
    (UserPreferences.renderCallback env g h).panel.root = [RootChild.preferences] ∧
    (UserPreferences.renderCallback env g h).panel.pages.map (List.map LinkSpec.title) =
      some (claimedLinkTitles h) ∧
    "Manage your API keys" ∈ claimedLinkTitles h ∧
    (h.remote_user = true → h.webapp ≠ "galaxy" →
      (UserPreferences.renderCallback env g h).panel.pages.map (List.map LinkSpec.title) =
        some ["Manage your API keys", "Manage your email alerts"]) := by
  have key : (UserPreferences.renderCallback env g h).error = none ∧
      (UserPreferences.renderCallback env g h).panel.root = [RootChild.preferences] ∧
      (UserPreferences.renderCallback env g h).panel.pages.map (List.map LinkSpec.title) =
        some (claimedLinkTitles h) := by
    by_cases hw : h.webapp = "galaxy" <;> cases hr : h.remote_user <;> cases ho : h.openid <;>
      simp [UserPreferences.renderCallback, UserPreferences.appendPref,
        UserPreferences.accountLinks, UserPreferences.galaxyLinks, UserPreferences.otherLinks,
        UserPreferences._link, Run.andThen, claimedLinkTitles, hid, hw, hr, ho]
  refine ⟨key.1, key.2.1, key.2.2, ?_, ?_⟩
  · by_cases hw : h.webapp = "galaxy" <;> simp [claimedLinkTitles, hw]
  · intro hr hw
    rw [key.2.2]
    simp [claimedLinkTitles, hr, hw]

theorem render_link_titles_witness :
    (UserPreferences.renderCallback env0 UserPreferences.created summaryOther).panel.pages.map
        (List.map LinkSpec.title) =
      some ["Manage your API keys", "Manage your email alerts"] ∧
    (UserPreferences.renderCallback env0 UserPreferences.created summaryGalaxy).panel.pages.map
        (List.map LinkSpec.title) =
      some ["Manage your information (email, address, etc.)", "Change your password",
        "Change your communication settings", "Change default permissions for new histories",
        "Manage your API keys", "Manage your ToolBox filters",
        "Manage OpenIDs linked to your account"] :=
  ⟨(render_link_titles env0 UserPreferences.created summaryOther (by decide)).2.2.2.2
      rfl (by decide),
   (render_link_titles env0 UserPreferences.created summaryGalaxy (by decide)).2.2.1⟩

/-- C7 at the failing inputs, all responses with `id: null`: the callback of `render`
is stopped by the `ReferenceError` of the unbound identifier `$preferences`.  The root
element is still empty, so it does not hold the notice, which was appended (when the
response has no truthy `message`) only to the element in `$preferences`.  No link was
created and the only request issued is the one of `render`. -/
theorem render_not_logged_in_raises (env : Env) (email webapp disk_usage quota : String)
    (remote_user openid enable_quotas : Bool) (message : Option String) :
    (UserPreferences.renderCallback env (UserPreferences.render env UserPreferences.created)
      { id := none, email := email, webapp := webapp, remote_user := remote_user,
        openid := openid, disk_usage := disk_usage, quota := quota,
        enable_quotas := enable_quotas, message := message }) =
      { panel :=
          { preferences := some
              { children := if truthy message then []
                  else [Node.html "<p>You are currently not logged in.</p>"],
                visible := true }
            pages := none
            root := []
            requests := [env.root ++ "api/user_preferences"] }
        error := some (JSError.referenceError "$preferences") } := by
  cases ht : truthy message <;>
    simp [UserPreferences.renderCallback, UserPreferences.render, UserPreferences.created,
      UserPreferences.appendPref, Run.andThen, ht]

/-- With a sub-view module and an object as the argument of the callback, the hook is set
on the object, the sub-view is constructed with it and appended, and the call of that
`onclose` shows the preferences again. -/
theorem UserPreferences.activate_of_object (env : Env) (a : LinkSpec) (m : Module)
    (k : Completion) (o : ArgObject) (b : Panel) (p : PrefEl) (hm : a.module = some m)
    (hp : b.preferences = some p) (hk : k.arg = CallbackArg.object o none) :
    UserPreferences.activate env a k b =
      { panel :=
          { b with
            preferences := some { p with visible := false }
            root := b.root ++ [RootChild.subview
              { module := m, arg := CallbackArg.object o (some Hook.showPreferences) }]
            requests := b.requests ++ [env.root ++ a.url.getD "undefined"] }
        error := none } ∧
    UserPreferences.callOnclose (CallbackArg.object o (some Hook.showPreferences))
        (UserPreferences.activate env a k b).panel =
      { panel :=
          { (UserPreferences.activate env a k b).panel with
            preferences := some { p with visible := true } }
        error := none } := by
  simp [UserPreferences.activate, UserPreferences.always, UserPreferences.click,
    UserPreferences.callOnclose, UserPreferences.runHook, CallbackArg.assignOnclose, hm, hp, hk]

/-- Whatever the completion, the callback hides the preferences first, and the request of
the click was issued. -/
theorem UserPreferences.activate_hides (env : Env) (a : LinkSpec) (k : Completion)
    (b : Panel) (p : PrefEl) (hp : b.preferences = some p) :
    (UserPreferences.activate env a k b).panel.preferences = some { p with visible := false } ∧
    (UserPreferences.activate env a k b).panel.requests =
      b.requests ++ [env.root ++ a.url.getD "undefined"] := by
  cases hc : k.arg.assignOnclose Hook.showPreferences <;> cases hm : a.module <;>
    simp [UserPreferences.activate, UserPreferences.always, UserPreferences.click, hp, hc, hm]

/-- A response without content or with the JSON value `null`: the assignment to
`c.onclose` raises a `TypeError` after the preferences were hidden; no sub-view is
constructed. -/
theorem UserPreferences.activate_of_nullish (env : Env) (a : LinkSpec) (k : Completion)
    (b : Panel) (p : PrefEl) (hp : b.preferences = some p) (hk : k.arg.isNullish = true) :
    UserPreferences.activate env a k b =
      { panel :=
          { b with
            preferences := some { p with visible := false }
            requests := b.requests ++ [env.root ++ a.url.getD "undefined"] }
        error := some (JSError.typeError "c is undefined or null") } := by
  cases hc : k.arg <;>
    simp_all [UserPreferences.activate, UserPreferences.always, UserPreferences.click,
      CallbackArg.assignOnclose, CallbackArg.isNullish]

/-- A response that is a primitive value: the assignment to `c.onclose` is dropped, the
sub-view is constructed with the value and appended, and a later call `c.onclose()`
raises a `TypeError` and leaves the preferences hidden. -/
theorem UserPreferences.activate_of_primitive (env : Env) (a : LinkSpec) (m : Module)
    (t : String) (b : Panel) (p : PrefEl) (hm : a.module = some m)
    (hp : b.preferences = some p) :
    UserPreferences.activate env a (Completion.success (ResponseData.primitive t)) b =
      { panel :=
          { b with
            preferences := some { p with visible := false }
            root := b.root ++ [RootChild.subview
              { module := m, arg := CallbackArg.primitive t }]
            requests := b.requests ++ [env.root ++ a.url.getD "undefined"] }
        error := none } ∧
    UserPreferences.callOnclose (CallbackArg.primitive t)
        (UserPreferences.activate env a (Completion.success (ResponseData.primitive t)) b).panel =
      { panel :=
          (UserPreferences.activate env a (Completion.success (ResponseData.primitive t)) b).panel
        error := some (JSError.typeError "c.onclose is not a function") } := by
  simp [UserPreferences.activate, UserPreferences.always, UserPreferences.click,
    UserPreferences.callOnclose, CallbackArg.assignOnclose, Completion.arg, hm, hp]

/-- C9 at the failing inputs, all placeholder links (no `url`, `module: null`) on a
panel that shows its preferences: activating the link requests the URL `undefined` under
the application root, and when that request ends, with success or with failure, the
preferences are hidden and the callback is stopped by a `TypeError`: the one of
`new null(c)`, or, when the response data is `undefined` or `null`, the one of the
assignment to `c.onclose` before it.  No sub-view is appended. -/
theorem activate_placeholder_hides (env : Env) (title : String) (k : Completion)
    (children : List Node) (pages : Option (List LinkSpec)) (root : List RootChild)
    (requests : List String) :
    UserPreferences.activate env { title := title, url := none, module := none } k
      { preferences := some { children := children, visible := true }, pages := pages,
        root := root, requests := requests } =
      { panel :=
          { preferences := some { children := children, visible := false }, pages := pages,
            root := root, requests := requests ++ [env.root ++ "undefined"] }
        error := some (JSError.typeError
          (if k.arg.isNullish then "c is undefined or null"
           else "a.module is not a constructor")) } := by
  cases hc : k.arg <;>
    simp [UserPreferences.activate, UserPreferences.always, UserPreferences.click,
      CallbackArg.assignOnclose, CallbackArg.isNullish, hc]

/-- C10 as stated fails.  When the request of the link `Change your password` fails, the
callback still runs with the jqXHR object: the reveal function is assigned to its
`onclose` and the sub-view constructed with it is appended to the root element.  When
the request succeeds with the text `saved`, the sub-view is appended but the payload
holds no `onclose` to call; when it succeeds without content, the callback stops with a
`TypeError` after hiding the preferences and no sub-view is appended. -/
theorem activate_failure_appends :
    UserPreferences.activate env0 passwordLink (Completion.failure "error") panelGalaxy =
      { panel :=
          { panelGalaxy with
            preferences := panelGalaxy.preferences.map (fun p => { p with visible := false })
            root := [RootChild.preferences,
              RootChild.subview
                { module := Module.changePassword
                  arg := CallbackArg.object (ArgObject.jqXHR "error")
                    (some Hook.showPreferences) }]
            requests := ["/api/user_preferences", "/api/user_preferences/42/password"] }
        error := none } ∧
    passwordLink ∈ panelGalaxy.pages.getD [] ∧
    UserPreferences.activate env0 passwordLink
        (Completion.success (ResponseData.primitive "saved")) panelGalaxy =
      { panel :=
          { panelGalaxy with
            preferences := panelGalaxy.preferences.map (fun p => { p with visible := false })
            root := [RootChild.preferences,
              RootChild.subview
                { module := Module.changePassword, arg := CallbackArg.primitive "saved" }]
            requests := ["/api/user_preferences", "/api/user_preferences/42/password"] }
        error := none } ∧
    (UserPreferences.callOnclose (CallbackArg.primitive "saved")
        (UserPreferences.activate env0 passwordLink
          (Completion.success (ResponseData.primitive "saved")) panelGalaxy).panel).error =
      some (JSError.typeError "c.onclose is not a function") ∧
    UserPreferences.activate env0 passwordLink
        (Completion.success ResponseData.undefined) panelGalaxy =
      { panel :=
          { panelGalaxy with
            preferences := panelGalaxy.preferences.map (fun p => { p with visible := false })
            root := [RootChild.preferences]
            requests := ["/api/user_preferences", "/api/user_preferences/42/password"] }
        error := some (JSError.typeError "c is undefined or null") } := by
  refine ⟨rfl, ?_, rfl, rfl, rfl⟩
  simp [panelGalaxy, passwordLink, env0, summaryGalaxy, UserPreferences.renderCallback,
    UserPreferences.render, UserPreferences.created, UserPreferences.appendPref,
    UserPreferences.accountLinks, UserPreferences.galaxyLinks, UserPreferences._link,
    Run.andThen]

/-- C10, as the code has it: for a link with a sub-view module on a panel whose
preferences element exists, when the request ends, with success or with failure, the
preferences are hidden.  When the request failed, and when it succeeded with an object
as payload, the reveal function is assigned to `onclose` of the object handed to the
callback (the jqXHR object, the payload), the module is constructed with that object and
appended to the root element, and calling that `onclose` shows the preferences again. -/
theorem activate_module_link (env : Env) (a : LinkSpec) (m : Module) (b : Panel) (p : PrefEl)
    (hm : a.module = some m) (hp : b.preferences = some p) :
    (∀ k : Completion,
      (UserPreferences.activate env a k b).panel.preferences =
        some { p with visible := false } ∧
      (UserPreferences.activate env a k b).panel.requests =
        b.requests ++ [env.root ++ a.url.getD "undefined"]) ∧
    (∀ status : String,
      UserPreferences.activate env a (Completion.failure status) b =
        { panel :=
            { b with
              preferences := some { p with visible := false }
              root := b.root ++ [RootChild.subview
                { module := m
                  arg := CallbackArg.object (ArgObject.jqXHR status)
                    (some Hook.showPreferences) }]
              requests := b.requests ++ [env.root ++ a.url.getD "undefined"] }
          error := none } ∧
      UserPreferences.callOnclose
          (CallbackArg.object (ArgObject.jqXHR status) (some Hook.showPreferences))
          (UserPreferences.activate env a (Completion.failure status) b).panel =
        { panel :=
            { (UserPreferences.activate env a (Completion.failure status) b).panel with
              preferences := some { p with visible := true } }
          error := none }) ∧
    (∀ body : String,
      UserPreferences.activate env a (Completion.success (ResponseData.object body)) b =
        { panel :=
            { b with
              preferences := some { p with visible := false }
              root := b.root ++ [RootChild.subview
                { module := m
                  arg := CallbackArg.object (ArgObject.data body)
                    (some Hook.showPreferences) }]
              requests := b.requests ++ [env.root ++ a.url.getD "undefined"] }
          error := none } ∧
      UserPreferences.callOnclose
          (CallbackArg.object (ArgObject.data body) (some Hook.showPreferences))
          (UserPreferences.activate env a
            (Completion.success (ResponseData.object body)) b).panel =
        { panel :=
            { (UserPreferences.activate env a
                (Completion.success (ResponseData.object body)) b).panel with
              preferences := some { p with visible := true } }
          error := none }) :=
  ⟨fun k => UserPreferences.activate_hides env a k b p hp,
   fun status => UserPreferences.activate_of_object env a m (Completion.failure status)
     (ArgObject.jqXHR status) b p hm hp rfl,
   fun body => UserPreferences.activate_of_object env a m
     (Completion.success (ResponseData.object body)) (ArgObject.data body) b p hm hp rfl⟩

theorem activate_module_link_witness :
    passwordLink.module = some Module.changePassword ∧
    (UserPreferences.activate env0 passwordLink
      (Completion.success (ResponseData.object "password form")) panelGalaxy).error = none ∧
    (UserPreferences.activate env0 passwordLink
      (Completion.success (ResponseData.object "password form")) panelGalaxy).panel.root =
      [RootChild.preferences,
       RootChild.subview
        { module := Module.changePassword
          arg := CallbackArg.object (ArgObject.data "password form")
            (some Hook.showPreferences) }] :=
  ⟨rfl,
   congrArg Run.error ((activate_module_link env0 passwordLink Module.changePassword
      panelGalaxy (panelGalaxy.preferences.getD ⟨[], true⟩) rfl rfl).2.2
      "password form").1,
   congrArg (fun r => r.panel.root) ((activate_module_link env0 passwordLink
      Module.changePassword panelGalaxy (panelGalaxy.preferences.getD ⟨[], true⟩)
      rfl rfl).2.2 "password form").1⟩

end Galaxy
